import Mathlib

/-!
Shallow embedding of the serverless reservation backend
(`netlify/functions/create-draft-order.js`).

The handler is modelled as a pure function from a configuration (the
environment variables), a `World` (the responses the external services
would give, together with the keyed-hash primitive `crypto.createHmac`
and the sources of nondeterminism `Date`/`Math.random`), and an inbound
HTTP event, to an HTTP result paired with the ordered trace of outbound
backend calls the handler performs.  Fallible `axios` calls are modelled
with `Except`: `.error e` means the promise rejected with error `e`.
JavaScript truthiness of the optional strings and numbers the code
branches on is modelled explicitly (`truthyS`, `truthyN`).
-/

set_option maxRecDepth 100000

namespace CreateDraftOrder

/-- Truthiness of a possibly-absent JS string: `undefined` and `""` are falsy. -/
def truthyS : Option String → Bool
  | some s => s != ""
  | none => false

/-- Truthiness of a possibly-absent JS number: `undefined` and `0` are falsy. -/
def truthyN : Option Nat → Bool
  | some n => n != 0
  | none => false

/-- Character for a decimal digit `d < 10`. -/
def digitChar (d : Nat) : Char := Char.ofNat (48 + d)

/-- Little-endian decimal digits of `n`, with fuel (`fuel ≥ n` suffices). -/
def natDigitsRev : Nat → Nat → List Nat
  | 0, _ => []
  | f + 1, n => if n = 0 then [] else (n % 10) :: natDigitsRev f (n / 10)

/-- Model of JS `Number.prototype.toString` for nonnegative integers. -/
def natToString (n : Nat) : String :=
  if n = 0 then "0" else String.mk (((natDigitsRev n n).map digitChar).reverse)

/-- Model of JS `String.prototype.padStart(n, c)`. -/
def padStart (s : String) (n : Nat) (c : Char) : String :=
  String.mk (List.replicate (n - s.length) c) ++ s

/-- Model of JS `String.prototype.trim` (strip leading/trailing whitespace). -/
def jsTrim (s : String) : String :=
  String.mk (((s.toList.dropWhile Char.isWhitespace).reverse.dropWhile Char.isWhitespace).reverse)

/-- Lexicographic comparison of char lists, as JS compares strings. -/
def chListLt : List Char → List Char → Bool
  | [], [] => false
  | [], _ :: _ => true
  | _ :: _, [] => false
  | a :: as, b :: bs => if a < b then true else if b < a then false else chListLt as bs

/-- JS default string comparison `a < b` (by code unit). -/
def jsStrLt (a b : String) : Bool := chListLt a.toList b.toList

/-- Insert into a list sorted by `le`. -/
def insertSorted (le : String → String → Bool) (x : String) : List String → List String
  | [] => [x]
  | y :: ys => if le x y then x :: y :: ys else y :: insertSorted le x ys

/-- Model of JS `Array.prototype.sort()` on distinct string keys. -/
def sortStrings : List String → List String
  | [] => []
  | x :: xs => insertSorted (fun a b => !jsStrLt b a) x (sortStrings xs)

/-- JS `a || b` on a possibly-absent numeric status code. -/
def jsOr (o : Option Nat) (d : Nat) : Nat :=
  match o with
  | some n => if n = 0 then d else n
  | none => d

/-- JS `a || b` on strings (`""` is falsy). -/
def jsOrS (a b : String) : String := if a != "" then a else b

/-! ## Data model -/

/-- One line item of the submitted draft order. -/
structure LineItem where
  title : Option String
  variant_id : Option Nat
  product_id : Option Nat
  price : Option String
  quantity : Option Nat
  properties : Option (List (String × String))
deriving DecidableEq

/-- Customer descriptor of the submitted draft order. -/
structure Customer where
  email : Option String
  first_name : Option String
  last_name : Option String
deriving DecidableEq

/-- The inbound `draft_order` payload (fields the handler reads). -/
structure DraftOrder where
  line_items : Option (List LineItem)
  customer : Option Customer
  note : Option String
  tags : Option String
deriving DecidableEq

/-- Parsed JSON request body. -/
structure RequestBody where
  draft_order : Option DraftOrder
  recaptcha_token : Option String
  recaptcha_action : Option String
deriving DecidableEq

/-- The inbound HTTP event.  `body` is the outcome of
`JSON.parse(event.body || "\x7b\x7d")`: `.error msg` models a parse
exception (caught by the handler's top-level catch). -/
structure HttpEvent where
  httpMethod : String
  queryStringParameters : Option (List (String × String))
  body : Except String RequestBody

/-- Response of the verification service (`siteverify`), fields the code reads. -/
structure RecaptchaData where
  success : Bool
  score : Option ℚ
  action : Option String
  errorCodes : Option String
deriving DecidableEq

/-- The `response` attached to a rejected `axios` promise:
`status` and the (stringified) `data.errors` detail, when present. -/
structure AxResponse where
  status : Option Nat
  errors : Option String
deriving DecidableEq

/-- A rejected `axios` promise. -/
structure AxiosError where
  response : Option AxResponse
  message : String
deriving DecidableEq

/-- `data.variant` of a variant-lookup response. -/
structure VariantData where
  product_id : Option Nat
deriving DecidableEq

/-- `data.product` of a product-lookup response. -/
structure ProductData where
  title : String
deriving DecidableEq

/-- A product metafield as returned by the metafield list endpoint. -/
structure Metafield where
  id : Nat
  ns : String
  key : String
  value : String
deriving DecidableEq

/-- `data.draft_order` of a successful draft-order creation response. -/
structure DraftOrderResp where
  id : Nat
  name : Option String
deriving DecidableEq

/-- Date components of `new Date()` at handling time. -/
structure DateParts where
  year : Nat
  month : Nat
  day : Nat
deriving DecidableEq

/-- One outbound backend call (in order).  `recaptchaVerify` goes to the
verification service; every other constructor is a call to the commerce
backend (`SHOP_DOMAIN` admin API). -/
inductive Call where
  | recaptchaVerify (token : String)
  | getVariant (variantId : Nat)
  | createDraftOrder (payload : DraftOrder)
  | getProduct (productId : Nat)
  | listMetafields (productId : Nat)
  | updateMetafield (metafieldId : Nat) (value : String)
  | createMetafield (productId : Nat) (ns key value : String)
  | createDraftOrderMetafield (draftOrderId : Nat) (ns key value : String)
deriving DecidableEq

/-- Calls directed at the commerce backend (everything except spam verification). -/
def isCommerceCall : Call → Bool
  | .recaptchaVerify _ => false
  | _ => true

/-- Calls that write product or order metadata. -/
def isMetadataWrite : Call → Bool
  | .updateMetafield _ _ => true
  | .createMetafield _ _ _ _ => true
  | .createDraftOrderMetafield _ _ _ _ => true
  | _ => false

/-- Calls that create a draft order. -/
def isCreateOrderCall : Call → Bool
  | .createDraftOrder _ => true
  | _ => false

/-- Environment configuration of the deployment. -/
structure Config where
  shopDomain : String
  accessToken : Option String
  apiVersion : String
  apiSecret : Option String
  recaptchaSecret : Option String

/-- Responses the external collaborators would give during this request,
plus the keyed-hash primitive and the nondeterminism sources.  The second
metafield list (`listMetafieldsAgain`) models the verification re-read,
which may observe a different backend state than the first read. -/
structure World where
  hmac : String → String → String
  recaptchaVerify : String → Except AxiosError RecaptchaData
  getVariant : Nat → Except AxiosError (Option VariantData)
  createDraftOrder : DraftOrder → Except AxiosError DraftOrderResp
  getProduct : Nat → Except AxiosError ProductData
  listMetafields : Nat → Except AxiosError (List Metafield)
  listMetafieldsAgain : Nat → Except AxiosError (List Metafield)
  updateMetafield : Nat → String → Except AxiosError Unit
  createMetafield : Nat → String → String → String → Except AxiosError Unit
  createDraftOrderMetafield : Nat → String → String → String → Except AxiosError Unit
  date : DateParts
  random : ℚ
  localeDateString : String

/-- Response body shapes the handler can produce. -/
inductive RespBody where
  | empty
  | err (msg : String)
  | errDetails (msg : String) (details : Option String)
  | errScore (msg : String) (score : ℚ) (threshold : ℚ)
  | failure (msg : String)
  | failureErrors (errs : String)
  | success (reservationNumber : String) (draftOrderId : Nat) (draftOrderName : String)
      (adminUrl : String) (productStatusUpdated : Bool) (productId : Option Nat)
      (metafieldsAdded : Nat)
deriving DecidableEq

/-- An HTTP result: status code and body. -/
structure HandlerResult where
  statusCode : Nat
  body : RespBody
deriving DecidableEq

/-! ## Signature verifier (`verifyShopifySignature`) -/

/-- `params[key]` inside a JS template string (`undefined` prints as "undefined"). -/
def paramTpl (params : List (String × String)) (k : String) : String :=
  match List.lookup k params with
  | some v => v
  | none => "undefined"

/-- Serialize `keys.map(key => key ++ "=" ++ params[key]).join(sep)`. -/
def sigSerialize (params : List (String × String)) (keys : List String) (sep : String) : String :=
  String.intercalate sep (keys.map (fun k => k ++ "=" ++ paramTpl params k))

/-- `params.shop || SHOP_DOMAIN` as used by the legacy methods. -/
def shopOrDomain (shopDomain : String) (params : List (String × String)) : String :=
  if truthyS (List.lookup "shop" params) then paramTpl params "shop" else shopDomain

/-- Non-`signature` query parameters (the rest-spread `...params`). -/
def sigParams (query : List (String × String)) : List (String × String) :=
  query.filter (fun p => p.fst != "signature")

/-- Method 4: all params sorted, no separator (the canonical scheme). -/
def method4String (query : List (String × String)) : String :=
  sigSerialize (sigParams query) (sortStrings ((sigParams query).map Prod.fst)) ""

/-- Method 1: `shop` and `timestamp` joined with `&`. -/
def method1String (shopDomain : String) (query : List (String × String)) : String :=
  "shop=" ++ shopOrDomain shopDomain (sigParams query) ++ "&timestamp=" ++
    paramTpl (sigParams query) "timestamp"

/-- Method 2: `shop` and `timestamp`, no separator. -/
def method2String (shopDomain : String) (query : List (String × String)) : String :=
  "shop=" ++ shopOrDomain shopDomain (sigParams query) ++ "timestamp=" ++
    paramTpl (sigParams query) "timestamp"

/-- Method 3: all params sorted, `&` separator. -/
def method3String (query : List (String × String)) : String :=
  sigSerialize (sigParams query) (sortStrings ((sigParams query).map Prod.fst)) "&"

/-- Method 5: all params unsorted, `&` separator. -/
def method5String (query : List (String × String)) : String :=
  sigSerialize (sigParams query) ((sigParams query).map Prod.fst) "&"

/-- Method 6: all params unsorted, no separator. -/
def method6String (query : List (String × String)) : String :=
  sigSerialize (sigParams query) ((sigParams query).map Prod.fst) ""

/-- The signature verifier: tries the canonical scheme first, then the five
legacy fallback schemes, accepting the first whose keyed hash equals the
supplied signature.  Returns the verdict and the matching method label. -/
def verifyShopifySignature (hmac : String → String → String) (apiSecret : Option String)
    (shopDomain : String) (query : List (String × String)) : Bool × String :=
  if !truthyS (List.lookup "signature" query) || !truthyS apiSecret then
    (false, "Missing signature or API secret")
  else if (List.lookup "signature" query).getD "" == hmac (apiSecret.getD "") (method4String query) then
    (true, "Method 4: All params sorted, no separator")
  else if (List.lookup "signature" query).getD "" == hmac (apiSecret.getD "") (method1String shopDomain query) then
    (true, "Method 1: shop & timestamp with & separator")
  else if (List.lookup "signature" query).getD "" == hmac (apiSecret.getD "") (method2String shopDomain query) then
    (true, "Method 2: shop & timestamp with no separator")
  else if (List.lookup "signature" query).getD "" == hmac (apiSecret.getD "") (method3String query) then
    (true, "Method 3: All params sorted with & separator")
  else if (List.lookup "signature" query).getD "" == hmac (apiSecret.getD "") (method5String query) then
    (true, "Method 5: All params unsorted with & separator")
  else if (List.lookup "signature" query).getD "" == hmac (apiSecret.getD "") (method6String query) then
    (true, "Method 6: All params unsorted with no separator")
  else
    (false, "All signature methods failed")

/-! ## Spam gate (reCAPTCHA v3 verification) -/

/-- Fixed confidence threshold (`minScore = 0.7`). -/
def minScore : ℚ := mkRat 7 10

/-- The spam gate.  `none` means the submission proceeds; `some r` is the
rejection result.  The trace records the call to the verification service
when one is made.  When no verification secret is configured the gate is
skipped entirely. -/
def spamCheck (cfg : Config) (w : World) (rb : RequestBody) :
    Option HandlerResult × List Call :=
  if !truthyS cfg.recaptchaSecret then
    (none, [])
  else if !truthyS rb.recaptcha_token then
    (some ⟨400, .err "reCAPTCHA verification failed: No token provided"⟩, [])
  else
    match w.recaptchaVerify (rb.recaptcha_token.getD "") with
    | .error e =>
        (some ⟨500, .errDetails "Error verifying reCAPTCHA token" (some e.message)⟩,
         [.recaptchaVerify (rb.recaptcha_token.getD "")])
    | .ok data =>
        if !data.success then
          (some ⟨400, .errDetails "reCAPTCHA verification failed" data.errorCodes⟩,
           [.recaptchaVerify (rb.recaptcha_token.getD "")])
        else if truthyS rb.recaptcha_action && (data.action != rb.recaptcha_action) then
          (some ⟨400, .err "reCAPTCHA verification failed: Action mismatch"⟩,
           [.recaptchaVerify (rb.recaptcha_token.getD "")])
        else
          match data.score with
          | some s =>
              if s < minScore then
                (some ⟨400, .errScore "Security verification failed. Please try again." s minScore⟩,
                 [.recaptchaVerify (rb.recaptcha_token.getD "")])
              else
                (none, [.recaptchaVerify (rb.recaptcha_token.getD "")])
          | none => (none, [.recaptchaVerify (rb.recaptcha_token.getD "")])

/-! ## Line-item processing -/

/-- Strip a leading `R<caps or digits>+ - ` stocking code from a title
(the regex `^R[A-Z0-9]+\s*-\s*`). -/
def dropTitleCode (cs : List Char) : List Char :=
  match cs with
  | 'R' :: rest =>
      let isCode : Char → Bool := fun c => c.isUpper || c.isDigit
      if (rest.takeWhile isCode).isEmpty then cs
      else
        match (rest.dropWhile isCode).dropWhile Char.isWhitespace with
        | '-' :: rest2 => rest2.dropWhile Char.isWhitespace
        | _ => cs
  | _ => cs

/-- `item.title.replace(stocking-code regex, "").trim()`. -/
def cleanTitle (t : String) : String := jsTrim (String.mk (dropTitleCode t.toList))

/-- Accumulator of the line-item loop. -/
structure LineItemsResult where
  items : List LineItem
  productId : Option Nat
  productTitle : String
  stockingNumber : String
  trace : List Call
deriving DecidableEq

/-- Title accumulator of one loop iteration (`if (item.title) productTitle = ...`). -/
def itemTitleAcc (acc : String) (item : LineItem) : String :=
  match item.title with
  | some t => if t != "" then cleanTitle t else acc
  | none => acc

/-- Stocking-number accumulator of one loop iteration. -/
def itemStockAcc (acc : String) (item : LineItem) : String :=
  match item.properties with
  | some props =>
      match props.find? (fun p => p.fst == "Stocking Number") with
      | some p => if p.snd != "" then p.snd else acc
      | none => acc
  | none => acc

/-- The variant lookup performed for an item, when its `variant_id` is truthy. -/
def variantCallsOf (item : LineItem) : List Call :=
  if truthyN item.variant_id then [Call.getVariant (item.variant_id.getD 0)] else []

/-- Resolve the owning product of one item via the variant lookup: returns
the (possibly enriched) item and the resolved product id.  A rejected
lookup is caught and ignored; the item is forwarded unchanged. -/
def itemLookup (w : World) (item : LineItem) : LineItem × Option Nat :=
  if truthyN item.variant_id then
    match w.getVariant (item.variant_id.getD 0) with
    | .ok (some v) =>
        if truthyN v.product_id then
          ({ item with product_id := some (v.product_id.getD 0) }, some (v.product_id.getD 0))
        else (item, none)
    | .ok none => (item, none)
    | .error _ => (item, none)
  else (item, none)

/-- One iteration of the line-item loop. -/
def processItem (w : World) (acc : LineItemsResult) (item : LineItem) : LineItemsResult :=
  { items := acc.items ++ [(itemLookup w item).fst],
    productId := ((itemLookup w item).snd).or acc.productId,
    productTitle := itemTitleAcc acc.productTitle item,
    stockingNumber := itemStockAcc acc.stockingNumber item,
    trace := acc.trace ++ variantCallsOf item }

/-- The line-item loop (`draft_order.line_items` when it is an array). -/
def processLineItems (w : World) (items : Option (List LineItem)) : LineItemsResult :=
  match items with
  | some is => is.foldl (processItem w) ⟨[], none, "Reserved Product", "", []⟩
  | none => ⟨[], none, "Reserved Product", "", []⟩

/-! ## Reservation number -/

/-- Model of `generateReservationNumber`: `RES-YYMMDD-NNNN` from the current
date and `Math.floor(1000 + Math.random() * 9000)`; the floor of the affine
map is computed on the numerator/denominator (see
`randomSuffixVal_eq_floor`). -/
def randomSuffixVal (r : ℚ) : Nat := (1000 + r.num * 9000 / (r.den : ℤ)).toNat

/-- `generateReservationNumber` as a function of the date and the
`Math.random()` outcome. -/
def generateReservationNumber (d : DateParts) (r : ℚ) : String :=
  let year := String.mk (((natToString d.year).toList.drop 2).take 2)
  let month := padStart (natToString d.month) 2 '0'
  let day := padStart (natToString d.day) 2 '0'
  "RES-" ++ year ++ month ++ day ++ "-" ++ natToString (randomSuffixVal r)

/-! ## Note parsing -/

/-- First match of `label([^\n]+)` in a char list: scan left to right for an
occurrence of `label` followed by at least one non-newline character, and
return that (maximal) capture. -/
def findCapture (pat : List Char) : List Char → Option (List Char)
  | [] => none
  | c :: rest =>
      match (if pat.isPrefixOf (c :: rest) then
               (let cap := ((c :: rest).drop pat.length).takeWhile (fun x => x != '\n')
                if cap.isEmpty then none else some cap)
             else none) with
      | some cap => some cap
      | none => findCapture pat rest

/-- Extract a `label: value` field from the note (trimmed), as the handler
does with `note.match(/label ([^\n]+)/)`. -/
def extractNoteField (note : Option String) (label : String) : String :=
  match note with
  | some n =>
      if n != "" then
        match findCapture label.toList n.toList with
        | some cap => jsTrim (String.mk cap)
        | none => ""
      else ""
  | none => ""

/-- Note with the reservation number prepended. -/
def noteWithRN (rn : String) : Option String → String
  | some n => if n != "" then "Reservation Number: " ++ rn ++ "\n\n" ++ n
              else "Reservation Number: " ++ rn
  | none => "Reservation Number: " ++ rn

/-- Tag list with the reservation number prepended. -/
def tagsWithRN (rn : String) : Option String → String
  | some t => if t != "" then rn ++ ", " ++ t else rn
  | none => rn

/-! ## Reservation state writer -/

/-- Outcome of the product metafield block (`metafieldResult`):
`written` carries the verified availability value, `caught` the error
message of the exception that was swallowed. -/
inductive MetafieldOutcome where
  | written (availabilityStatus : Option String)
  | caught (msg : String)
deriving DecidableEq

/-- Mark the product as reserved via metafields (the block guarded by
`if (productId)`); all its exceptions are caught and folded into the
outcome. -/
def productReservePhase (w : World) (productId : Option Nat) (rn : String) :
    Option MetafieldOutcome × List Call :=
  if !truthyN productId then (none, [])
  else
    let pid := productId.getD 0
    match w.getProduct pid with
    | .error e => (some (.caught e.message), [.getProduct pid])
    | .ok _ =>
        match w.listMetafields pid with
        | .error e => (some (.caught e.message), [.getProduct pid, .listMetafields pid])
        | .ok existing =>
            let tr0 := [Call.getProduct pid, Call.listMetafields pid]
            let availMf := existing.find? (fun m => m.ns == "custom" && m.key == "availability_status")
            let step1 := match availMf with
              | some m => (w.updateMetafield m.id "Reserved", Call.updateMetafield m.id "Reserved")
              | none => (w.createMetafield pid "custom" "availability_status" "Reserved",
                         Call.createMetafield pid "custom" "availability_status" "Reserved")
            match step1.fst with
            | .error e => (some (.caught e.message), tr0 ++ [step1.snd])
            | .ok _ =>
                let rnMf := existing.find? (fun m => m.ns == "custom" && m.key == "reservation_number")
                let step2 := match rnMf with
                  | some m => (w.updateMetafield m.id rn, Call.updateMetafield m.id rn)
                  | none => (w.createMetafield pid "custom" "reservation_number" rn,
                             Call.createMetafield pid "custom" "reservation_number" rn)
                match step2.fst with
                | .error e => (some (.caught e.message), tr0 ++ [step1.snd, step2.snd])
                | .ok _ =>
                    match w.listMetafieldsAgain pid with
                    | .error e =>
                        (some (.caught e.message),
                         tr0 ++ [step1.snd, step2.snd, .listMetafields pid])
                    | .ok updated =>
                        let ua := updated.find?
                          (fun m => m.ns == "custom" && m.key == "availability_status")
                        (some (.written (ua.map Metafield.value)),
                         tr0 ++ [step1.snd, step2.snd, .listMetafields pid])

/-- The nine descriptive metafields attached to the just-created draft order. -/
def draftOrderMetafieldList (rn stocking practice email zip role title dateStr : String) :
    List (String × String × String) :=
  [("reservation", "reservation_number", rn),
   ("reservation", "stocking_number", jsOrS stocking ""),
   ("reservation", "practice_name", practice),
   ("reservation", "customer_email", email),
   ("reservation", "customer_zip_code", zip),
   ("reservation", "customer_role", role),
   ("reservation", "product_title", title),
   ("reservation", "reservation_date", dateStr),
   ("reservation", "hold_duration", "2 business days")]

/-- Attach the descriptive metafields to the draft order, one call each;
individual failures are caught and only counted.  Returns the number of
successful writes and the trace. -/
def domPhase (w : World) (doId : Nat) (mfs : List (String × String × String)) :
    Nat × List Call :=
  mfs.foldl
    (fun acc mf =>
      (acc.fst + (match w.createDraftOrderMetafield doId mf.fst mf.snd.fst mf.snd.snd with
                  | .ok _ => 1
                  | .error _ => 0),
       acc.snd ++ [Call.createDraftOrderMetafield doId mf.fst mf.snd.fst mf.snd.snd]))
    (0, [])

/-! ## Orchestrator -/

/-- The handler's top-level `catch`: a 401 from the backend is surfaced as an
expired-credential error, backend validation errors pass through with the
backend's status (or 400), anything else is a generic 500. -/
def catchTop (e : AxiosError) : HandlerResult :=
  match e.response with
  | some r =>
      if r.status = some 401 then ⟨401, .failure "Access token expired or invalid"⟩
      else if truthyS r.errors then ⟨jsOr r.status 400, .failureErrors (r.errors.getD "")⟩
      else ⟨500, .failure e.message⟩
  | none => ⟨500, .failure e.message⟩

/-- Line-item loop result for a draft order. -/
def liOf (w : World) (d0 : DraftOrder) : LineItemsResult :=
  processLineItems w d0.line_items

/-- The reservation number generated during this request. -/
def rnOf (w : World) : String := generateReservationNumber w.date w.random

/-- Customer email for the order metafields (`[No email provided]` fallback). -/
def customerEmailOf (d0 : DraftOrder) : String :=
  match d0.customer with
  | some c =>
      match c.email with
      | some e => if e != "" then e else "[No email provided]"
      | none => "[No email provided]"
  | none => "[No email provided]"

/-- The draft order actually submitted: enriched line items, note and tags
prefixed with the reservation number. -/
def builtDraftOrder (w : World) (d0 : DraftOrder) : DraftOrder :=
  { line_items := match d0.line_items with
      | some _ => some (liOf w d0).items
      | none => none,
    customer := d0.customer,
    note := some (noteWithRN (rnOf w) d0.note),
    tags := some (tagsWithRN (rnOf w) d0.tags) }

/-- The descriptive order metafields assembled for this request. -/
def orderMetafieldsOf (w : World) (d0 : DraftOrder) : List (String × String × String) :=
  draftOrderMetafieldList (rnOf w) (liOf w d0).stockingNumber
    (extractNoteField d0.note "Practice Name: ") (customerEmailOf d0)
    (extractNoteField d0.note "ZIP/Postal Code: ") (extractNoteField d0.note "Role: ")
    (liOf w d0).productTitle w.localeDateString

/-- Everything after the gates: line items, reservation number, note/tag
injection, order creation, reservation state writes, response assembly. -/
def processOrder (cfg : Config) (w : World) (d0 : DraftOrder) (tr0 : List Call) :
    HandlerResult × List Call :=
  match w.createDraftOrder (builtDraftOrder w d0) with
  | .error e =>
      (catchTop e,
       tr0 ++ (liOf w d0).trace ++ [Call.createDraftOrder (builtDraftOrder w d0)])
  | .ok resp =>
      (⟨200, .success (rnOf w) resp.id
          (if truthyS resp.name then resp.name.getD "" else "Draft Order")
          ("https://" ++ cfg.shopDomain ++ "/admin/draft_orders/" ++ natToString resp.id)
          (productReservePhase w (liOf w d0).productId (rnOf w)).fst.isSome
          (liOf w d0).productId
          (domPhase w resp.id (orderMetafieldsOf w d0)).fst⟩,
       tr0 ++ (liOf w d0).trace ++ [Call.createDraftOrder (builtDraftOrder w d0)] ++
         (productReservePhase w (liOf w d0).productId (rnOf w)).snd ++
         (domPhase w resp.id (orderMetafieldsOf w d0)).snd)

/-- The request handler: CORS preflight, method gate, body parse, spam gate,
query-parameter and signature gates, credential check, then order processing. -/
def handler (cfg : Config) (w : World) (ev : HttpEvent) : HandlerResult × List Call :=
  if ev.httpMethod == "OPTIONS" then (⟨204, .empty⟩, [])
  else if ev.httpMethod != "POST" then (⟨405, .err "Method not allowed"⟩, [])
  else
    match ev.body with
    | .error msg => (⟨500, .failure msg⟩, [])
    | .ok rb =>
        match rb.draft_order with
        | none => (⟨400, .err "Missing draft order data"⟩, [])
        | some d0 =>
            match spamCheck cfg w rb with
            | (some r, tr) => (r, tr)
            | (none, tr0) =>
                if !truthyS (List.lookup "signature" (ev.queryStringParameters.getD [])) ||
                    !truthyS (List.lookup "timestamp" (ev.queryStringParameters.getD [])) then
                  (⟨400, .err "Missing required query parameters"⟩, tr0)
                else if !(verifyShopifySignature w.hmac cfg.apiSecret cfg.shopDomain
                    (ev.queryStringParameters.getD [])).fst then
                  (⟨401, .err "Invalid signature"⟩, tr0)
                else if !truthyS cfg.accessToken then
                  (⟨500, .err "Server configuration error - missing access token"⟩, tr0)
                else
                  processOrder cfg w d0 tr0

/-! ## Derived predicates -/

/-- Decidable model of the regular expression matching exactly `RES-`, six
digits, a dash, and four digits, anchored at both ends. -/
def matchesResFormat (s : String) : Bool :=
  match s.toList with
  | ['R', 'E', 'S', '-', a, b, c, d, e, f, '-', g, h, i, j] =>
      [a, b, c, d, e, f, g, h, i, j].all Char.isDigit
  | _ => false

/-- The two-digit zero-padded decimal string of `n % 100`. -/
def twoDigitStr (n : Nat) : String :=
  String.mk [digitChar (n / 10 % 10), digitChar (n % 10)]

/-- Spam-gate rejection bodies (no-token, service error, not-success,
action mismatch, low score). -/
def isSpamRejectionBody : RespBody → Bool
  | .err m => (m == "reCAPTCHA verification failed: No token provided") ||
              (m == "reCAPTCHA verification failed: Action mismatch")
  | .errDetails _ _ => true
  | .errScore _ _ _ => true
  | _ => false

/-- Bodies that can only be produced after all gates have passed
(success, or the top-level catch around order creation). -/
def isPostGateBody : RespBody → Bool
  | .success _ _ _ _ _ _ _ => true
  | .failure _ => true
  | .failureErrors _ => true
  | _ => false

/-- Traces consisting solely of variant lookups. -/
def onlyGetVariantCalls (l : List Call) : Bool :=
  l.all fun c => match c with
    | .getVariant _ => true
    | _ => false

/-! ## Trace and shape lemmas -/

lemma spamCheck_trace (cfg : Config) (w : World) (rb : RequestBody) :
    ∀ o tr, spamCheck cfg w rb = (o, tr) → tr.filter isCommerceCall = [] := by
  unfold spamCheck
  intro o tr h
  repeat' split at h
  all_goals (cases h; rfl)

lemma processItem_trace (w : World) (acc : LineItemsResult) (item : LineItem)
    (h : onlyGetVariantCalls acc.trace = true) :
    onlyGetVariantCalls (processItem w acc item).trace = true := by
  show onlyGetVariantCalls (acc.trace ++ variantCallsOf item) = true
  simp only [onlyGetVariantCalls, List.all_append, Bool.and_eq_true] at h ⊢
  refine ⟨h, ?_⟩
  unfold variantCallsOf
  split <;> rfl

lemma foldl_processItem_trace (w : World) (is : List LineItem) :
    ∀ acc : LineItemsResult, onlyGetVariantCalls acc.trace = true →
      onlyGetVariantCalls (is.foldl (processItem w) acc).trace = true := by
  induction is with
  | nil => intro acc h; simpa using h
  | cons i is ih =>
      intro acc h
      simpa using ih _ (processItem_trace w acc i h)

lemma processLineItems_trace (w : World) (items : Option (List LineItem)) :
    onlyGetVariantCalls (processLineItems w items).trace = true := by
  cases items with
  | none => rfl
  | some is => exact foldl_processItem_trace w is _ rfl

lemma onlyGetVariant_no_writes (l : List Call) (h : onlyGetVariantCalls l = true) :
    l.filter isMetadataWrite = [] := by
  induction l with
  | nil => rfl
  | cons c cs ih =>
      simp only [onlyGetVariantCalls, List.all_cons, Bool.and_eq_true] at h
      cases c <;> simp_all [onlyGetVariantCalls, isMetadataWrite, List.filter]

lemma onlyGetVariant_no_create (l : List Call) (h : onlyGetVariantCalls l = true) :
    ∀ d, Call.createDraftOrder d ∉ l := by
  induction l with
  | nil => simp
  | cons c cs ih =>
      simp only [onlyGetVariantCalls, List.all_cons, Bool.and_eq_true] at h
      cases c <;> simp_all [onlyGetVariantCalls]

lemma catchTop_body_shape (e : AxiosError) :
    (∃ m, (catchTop e).body = .failure m) ∨ ∃ s, (catchTop e).body = .failureErrors s := by
  unfold catchTop
  repeat' split
  all_goals first
    | exact Or.inl ⟨_, rfl⟩
    | exact Or.inr ⟨_, rfl⟩

lemma catchTop_status_shape (e : AxiosError) :
    (catchTop e).statusCode = 401 ∨ (catchTop e).statusCode = 500 ∨
      ∃ r, e.response = some r ∧ (catchTop e).statusCode = jsOr r.status 400 := by
  unfold catchTop
  split
  · rename_i r hr
    split
    · exact Or.inl rfl
    split
    · exact Or.inr (Or.inr ⟨r, hr, rfl⟩)
    · exact Or.inr (Or.inl rfl)
  · exact Or.inr (Or.inl rfl)

lemma processOrder_body_shape (cfg : Config) (w : World) (d0 : DraftOrder) (tr0 : List Call) :
    isPostGateBody (processOrder cfg w d0 tr0).1.body = true := by
  unfold processOrder
  split
  · rename_i e _
    show isPostGateBody (catchTop e).body = true
    rcases catchTop_body_shape e with ⟨m, hm⟩ | ⟨s, hs⟩
    · rw [hm]; rfl
    · rw [hs]; rfl
  · rfl

/-- Everywhere the handler rejects at a gate, the accumulated trace holds no
commerce-backend call; otherwise the body has a post-gate shape. -/
lemma handler_cases (cfg : Config) (w : World) (ev : HttpEvent) :
    ((handler cfg w ev).2).filter isCommerceCall = [] ∨
      isPostGateBody (handler cfg w ev).1.body = true := by
  unfold handler
  split
  · exact Or.inl rfl
  split
  · exact Or.inl rfl
  split
  · exact Or.inl rfl
  rename_i rb hb
  split
  · exact Or.inl rfl
  rename_i d0 hd0
  split
  · rename_i r tr heq
    exact Or.inl (spamCheck_trace cfg w rb _ _ heq)
  rename_i tr0 heq
  have htr0 : tr0.filter isCommerceCall = [] := spamCheck_trace cfg w rb _ _ heq
  split
  · exact Or.inl htr0
  split
  · exact Or.inl htr0
  split
  · exact Or.inl htr0
  exact Or.inr (processOrder_body_shape cfg w d0 tr0)

/-- C6: the listed gate rejections abort with an empty commerce trace. -/
theorem C6_gate_rejections_no_commerce_calls (cfg : Config) (w : World) (ev : HttpEvent)
    (h : (handler cfg w ev).1.body = .err "Method not allowed" ∨
         (handler cfg w ev).1.body = .err "Missing draft order data" ∨
         isSpamRejectionBody (handler cfg w ev).1.body = true ∨
         (handler cfg w ev).1.body = .err "Missing required query parameters" ∨
         (handler cfg w ev).1.body = .err "Invalid signature") :
    ((handler cfg w ev).2).filter isCommerceCall = [] := by
  rcases handler_cases cfg w ev with hc | hc
  · exact hc
  · exfalso
    rcases h with h | h | h | h | h <;>
      first
        | (rw [h] at hc; simp [isPostGateBody] at hc)
        | (cases hb : (handler cfg w ev).1.body <;>
            rw [hb] at hc h <;> simp_all [isPostGateBody, isSpamRejectionBody])

/-! ## Concrete scenarios -/

/-- A benign base world: every backend call succeeds with minimal data. -/
def w0 : World where
  hmac := fun _ _ => ""
  recaptchaVerify := fun _ => Except.error ⟨none, "network error"⟩
  getVariant := fun _ => Except.ok none
  createDraftOrder := fun _ => Except.ok ⟨1, none⟩
  getProduct := fun _ => Except.ok ⟨"Product"⟩
  listMetafields := fun _ => Except.ok []
  listMetafieldsAgain := fun _ => Except.ok []
  updateMetafield := fun _ _ => Except.ok ()
  createMetafield := fun _ _ _ _ => Except.ok ()
  createDraftOrderMetafield := fun _ _ _ _ => Except.ok ()
  date := ⟨2025, 10, 11⟩
  random := mkRat 1 2
  localeDateString := "10/11/2025"

/-- A draft order with no fields set. -/
def emptyDraftOrder : DraftOrder := ⟨none, none, none, none⟩

/-- Configuration with signing secret and access token but no verification
secret (the spam gate is skipped). -/
def cfgNoCaptcha : Config :=
  ⟨"test-shop.myshopify.com", some "test-token", "2025-01", some "test-secret", none⟩

/-- The scenario of the repository's conflict-detection test: variant 12345
resolves to product 67890 whose `custom.availability_status` metafield
holds "Reserved"; the mocked hash always evaluates to `test-signature`. -/
def w409 : World :=
  { w0 with
    hmac := fun _ _ => "test-signature",
    getVariant := fun v => if v = 12345 then Except.ok (some ⟨some 67890⟩) else Except.ok none,
    createDraftOrder := fun _ => Except.ok ⟨123456, some "#D1001"⟩,
    getProduct := fun _ => Except.ok ⟨"Test Product"⟩,
    listMetafields := fun _ => Except.ok [⟨777, "custom", "availability_status", "Reserved"⟩],
    listMetafieldsAgain := fun _ => Except.ok [⟨777, "custom", "availability_status", "Reserved"⟩] }

/-- The test's base event: a reservation for variant 12345. -/
def ev409 : HttpEvent :=
  ⟨"POST", some [("signature", "test-signature"), ("timestamp", "1609459200")],
   Except.ok ⟨some ⟨some [⟨some "Test Product", some 12345, none, some "99.99", some 1, none⟩],
     some ⟨some "test@example.com", some "Test", some "Customer"⟩,
     some "Practice Name: Test Practice\nZIP/Postal Code: 12345\nCountry: Canada\nRole: Dentist",
     none⟩, none, none⟩⟩

/-- C1: the claim demands 409 `PRODUCT_ALREADY_RESERVED` with no order
creation when the resolved product's availability-status metafield equals a
reserved value.  The handler has no such check before order creation: at the
exact scenario of the repository's own conflict-detection test (product
67890 reserved), it returns 200 and does invoke the order-creation
endpoint. -/
theorem C1_reserved_product_still_creates_order :
    w409.listMetafields 67890 = Except.ok [⟨777, "custom", "availability_status", "Reserved"⟩] ∧
    (handler cfgNoCaptcha w409 ev409).1.statusCode = 200 ∧
    ((handler cfgNoCaptcha w409 ev409).2.any isCreateOrderCall) = true ∧
    (handler cfgNoCaptcha w409 ev409).1.statusCode ≠ 409 := by
  refine ⟨rfl, ?_, ?_, ?_⟩ <;> decide

/-- Event for the C4 counterexample: POST, no query parameters at all, and a
parseable body that lacks `draft_order`. -/
def evC4 : HttpEvent := ⟨"POST", none, Except.ok ⟨none, none, none⟩⟩

/-- C4 counterexample: a POST request lacking both `signature` and
`timestamp` that is answered 400 with the missing-draft-order error, not the
missing-params error (the body gate runs first). -/
theorem C4_counterexample :
    evC4.queryStringParameters = none ∧
    (handler cfgNoCaptcha w0 evC4).1.statusCode = 400 ∧
    (handler cfgNoCaptcha w0 evC4).1.body = RespBody.err "Missing draft order data" ∧
    (handler cfgNoCaptcha w0 evC4).1.body ≠ RespBody.err "Missing required query parameters" := by
  refine ⟨rfl, ?_, ?_, ?_⟩ <;> decide

/-- C4 (amended): for every POST request whose body parses with `draft_order`
present and which passes the spam gate, a missing (or empty) `signature` or
`timestamp` query parameter yields 400 with the missing-params error. -/
theorem C4_amended_missing_params (cfg : Config) (w : World) (ev : HttpEvent)
    (rb : RequestBody) (d0 : DraftOrder) (tr0 : List Call)
    (hm : ev.httpMethod = "POST")
    (hb : ev.body = Except.ok rb)
    (hd : rb.draft_order = some d0)
    (hsp : spamCheck cfg w rb = (none, tr0))
    (hq : truthyS (List.lookup "signature" (ev.queryStringParameters.getD [])) = false ∨
          truthyS (List.lookup "timestamp" (ev.queryStringParameters.getD [])) = false) :
    handler cfg w ev = (⟨400, RespBody.err "Missing required query parameters"⟩, tr0) := by
  unfold handler
  rcases hq with h | h <;>
    simp [hm, hb, hd, hsp, h]

/-- Witness for C4 (amended) at a concrete input. -/
theorem C4_amended_missing_params_witness :
    handler cfgNoCaptcha w0 ⟨"POST", some [("signature", "x")], Except.ok ⟨some emptyDraftOrder, none, none⟩⟩ =
      (⟨400, RespBody.err "Missing required query parameters"⟩, []) :=
  C4_amended_missing_params cfgNoCaptcha w0 _ _ emptyDraftOrder [] rfl rfl rfl rfl
    (Or.inr (by decide))

/-- Configuration for the C5 counterexample: no shared signing secret. -/
def cfgNoSecret : Config :=
  ⟨"test-shop.myshopify.com", some "test-token", "2025-01", none, none⟩

/-- Event for the C5 counterexample: a well-formed POST with both query
parameters present. -/
def evC5 : HttpEvent :=
  ⟨"POST", some [("signature", "x"), ("timestamp", "1")],
   Except.ok ⟨some emptyDraftOrder, none, none⟩⟩

/-- C5 counterexample: with the signing secret unset, the handler answers
401 `Invalid signature` — a client authentication error, not a server-side
5xx configuration error. -/
theorem C5_counterexample :
    cfgNoSecret.apiSecret = none ∧
    handler cfgNoSecret w0 evC5 = (⟨401, RespBody.err "Invalid signature"⟩, []) ∧
    ¬ (500 ≤ (handler cfgNoSecret w0 evC5).1.statusCode) := by
  refine ⟨rfl, ?_, ?_⟩ <;> decide

/-- C5 (amended): when the shared signing secret is not configured (absent or
empty), every request reaching the signature check is rejected with the
client authentication error 401 `Invalid signature`, not a 5xx. -/
theorem C5_amended_missing_secret_rejected_as_401 (cfg : Config) (w : World) (ev : HttpEvent)
    (rb : RequestBody) (d0 : DraftOrder) (tr0 : List Call)
    (hm : ev.httpMethod = "POST")
    (hb : ev.body = Except.ok rb)
    (hd : rb.draft_order = some d0)
    (hsp : spamCheck cfg w rb = (none, tr0))
    (hsig : truthyS (List.lookup "signature" (ev.queryStringParameters.getD [])) = true)
    (hts : truthyS (List.lookup "timestamp" (ev.queryStringParameters.getD [])) = true)
    (hsec : truthyS cfg.apiSecret = false) :
    handler cfg w ev = (⟨401, RespBody.err "Invalid signature"⟩, tr0) := by
  unfold handler verifyShopifySignature
  simp [hm, hb, hd, hsp, hsig, hts, hsec]

/-- Witness for C5 (amended) at a concrete input. -/
theorem C5_amended_missing_secret_rejected_as_401_witness :
    handler cfgNoSecret w0 evC5 = (⟨401, RespBody.err "Invalid signature"⟩, []) :=
  C5_amended_missing_secret_rejected_as_401 cfgNoSecret w0 evC5 _ emptyDraftOrder [] rfl rfl rfl
    rfl (by decide) (by decide) rfl

/-- Witness for C6 at a concrete input: a GET request is rejected 405 with an
empty commerce trace. -/
theorem C6_gate_rejections_no_commerce_calls_witness :
    ((handler cfgNoCaptcha w0 ⟨"GET", none, Except.ok ⟨none, none, none⟩⟩).2).filter
      isCommerceCall = [] :=
  C6_gate_rejections_no_commerce_calls cfgNoCaptcha w0 _ (Or.inl (by decide))

/-! ## C2: signature verification scheme -/

/-- Serialization following the spec's literal `key1value1key2value2`
parenthetical (sorted keys, no `=` and no separator); compared against the
code's canonical `method4String` serialization. -/
def specNoEqSerialize (query : List (String × String)) : String :=
  String.join ((sortStrings ((sigParams query).map Prod.fst)).map
    (fun k => k ++ paramTpl (sigParams query) k))

/-- A stand-in for the keyed hash primitive in the C2 counterexample world:
injective and prefix-tagged, so distinct messages give distinct digests. -/
def hmacCex : String → String → String := fun secret msg => secret ++ "|" ++ msg

/-- Query of the C2 counterexample: the supplied signature is the digest of
the legacy method-1 serialization (`&`-separated), not of the canonical
one. -/
def qC2 : List (String × String) :=
  [("shop", "x.myshopify.com"), ("timestamp", "1"),
   ("signature", "s|shop=x.myshopify.com&timestamp=1")]

/-- Configuration for the C2 counterexample. -/
def cfgC2 : Config := ⟨"x.myshopify.com", some "test-token", "2025-01", some "s", none⟩

/-- World for the C2 counterexample. -/
def wC2 : World := { w0 with hmac := hmacCex }

/-- Event for the C2 counterexample. -/
def evC2 : HttpEvent := ⟨"POST", some qC2, Except.ok ⟨some emptyDraftOrder, none, none⟩⟩

/-- C2 counterexample: a request whose signature fails the canonical scheme
(under either reading of its serialization) but matches the legacy
shop-timestamp scheme is accepted by the verifier, and the handler answers
200, not 401. -/
theorem C2_counterexample :
    (verifyShopifySignature hmacCex (some "s") "x.myshopify.com" qC2).fst = true ∧
    List.lookup "signature" qC2 = some "s|shop=x.myshopify.com&timestamp=1" ∧
    hmacCex "s" (method4String qC2) ≠ "s|shop=x.myshopify.com&timestamp=1" ∧
    hmacCex "s" (specNoEqSerialize qC2) ≠ "s|shop=x.myshopify.com&timestamp=1" ∧
    (handler cfgC2 wC2 evC2).1.statusCode = 200 ∧
    (handler cfgC2 wC2 evC2).1.statusCode ≠ 401 := by
  refine ⟨?_, rfl, ?_, ?_, ?_, ?_⟩ <;> decide

/-- C2 (amended): the verifier declares a request valid iff the supplied
signature equals the keyed hash of one of SIX serializations — the canonical
sorted/no-separator scheme tried first, then the five legacy fallbacks —
and the handler returns 401 `Invalid signature` exactly when verification
fails (in particular when all six fail). -/
theorem C2_amended_six_scheme_verifier :
    (∀ (hmac : String → String → String) (sec dom : String) (q : List (String × String))
        (sig : String), List.lookup "signature" q = some sig → sig ≠ "" → sec ≠ "" →
      ((verifyShopifySignature hmac (some sec) dom q).fst = true ↔
        (sig = hmac sec (method4String q) ∨ sig = hmac sec (method1String dom q) ∨
         sig = hmac sec (method2String dom q) ∨ sig = hmac sec (method3String q) ∨
         sig = hmac sec (method5String q) ∨ sig = hmac sec (method6String q)))) ∧
    (∀ (cfg : Config) (w : World) (ev : HttpEvent) (rb : RequestBody) (d0 : DraftOrder)
        (tr0 : List Call), ev.httpMethod = "POST" → ev.body = Except.ok rb →
      rb.draft_order = some d0 → spamCheck cfg w rb = (none, tr0) →
      truthyS (List.lookup "signature" (ev.queryStringParameters.getD [])) = true →
      truthyS (List.lookup "timestamp" (ev.queryStringParameters.getD [])) = true →
      (verifyShopifySignature w.hmac cfg.apiSecret cfg.shopDomain
        (ev.queryStringParameters.getD [])).fst = false →
      handler cfg w ev = (⟨401, RespBody.err "Invalid signature"⟩, tr0)) := by
  constructor
  · intro hmac sec dom q sig hsig hne hsec
    unfold verifyShopifySignature
    rw [hsig]
    have h1 : truthyS (some sig) = true := by simp [truthyS, hne]
    have h2 : truthyS (some sec) = true := by simp [truthyS, hsec]
    simp only [h1, h2, Option.getD_some, Bool.not_true, Bool.or_self, Bool.false_eq_true,
      if_false, beq_iff_eq]
    by_cases e4 : sig = hmac sec (method4String q)
    · rw [if_pos e4]
      exact iff_of_true rfl (Or.inl e4)
    rw [if_neg e4]
    by_cases e1 : sig = hmac sec (method1String dom q)
    · rw [if_pos e1]
      exact iff_of_true rfl (Or.inr (Or.inl e1))
    rw [if_neg e1]
    by_cases e2 : sig = hmac sec (method2String dom q)
    · rw [if_pos e2]
      exact iff_of_true rfl (Or.inr (Or.inr (Or.inl e2)))
    rw [if_neg e2]
    by_cases e3 : sig = hmac sec (method3String q)
    · rw [if_pos e3]
      exact iff_of_true rfl (Or.inr (Or.inr (Or.inr (Or.inl e3))))
    rw [if_neg e3]
    by_cases e5 : sig = hmac sec (method5String q)
    · rw [if_pos e5]
      exact iff_of_true rfl (Or.inr (Or.inr (Or.inr (Or.inr (Or.inl e5)))))
    rw [if_neg e5]
    by_cases e6 : sig = hmac sec (method6String q)
    · rw [if_pos e6]
      exact iff_of_true rfl (Or.inr (Or.inr (Or.inr (Or.inr (Or.inr e6)))))
    rw [if_neg e6]
    exact iff_of_false (by simp) (by simp [e4, e1, e2, e3, e5, e6])
  · intro cfg w ev rb d0 tr0 hm hb hd hsp hsig hts hver
    unfold handler
    simp [hm, hb, hd, hsp, hsig, hts, hver]

/-- Witness for C2 (amended): both parts exercised at concrete inputs. -/
theorem C2_amended_six_scheme_verifier_witness :
    ((verifyShopifySignature hmacCex (some "s") "x.myshopify.com" qC2).fst = true ↔
      ("s|shop=x.myshopify.com&timestamp=1" = hmacCex "s" (method4String qC2) ∨
       "s|shop=x.myshopify.com&timestamp=1" = hmacCex "s" (method1String "x.myshopify.com" qC2) ∨
       "s|shop=x.myshopify.com&timestamp=1" = hmacCex "s" (method2String "x.myshopify.com" qC2) ∨
       "s|shop=x.myshopify.com&timestamp=1" = hmacCex "s" (method3String qC2) ∨
       "s|shop=x.myshopify.com&timestamp=1" = hmacCex "s" (method5String qC2) ∨
       "s|shop=x.myshopify.com&timestamp=1" = hmacCex "s" (method6String qC2))) ∧
    handler cfgNoCaptcha w0 evC5 = (⟨401, RespBody.err "Invalid signature"⟩, []) :=
  ⟨C2_amended_six_scheme_verifier.1 hmacCex "s" "x.myshopify.com" qC2
      "s|shop=x.myshopify.com&timestamp=1" rfl (by decide) (by decide),
   C2_amended_six_scheme_verifier.2 cfgNoCaptcha w0 evC5 _ emptyDraftOrder [] rfl rfl rfl rfl
      (by decide) (by decide) (by decide)⟩

/-! ## C3: spam gate -/

/-- The fixed threshold is seven tenths. -/
lemma minScore_eq : minScore = 7 / 10 := by
  unfold minScore
  norm_num [Rat.mkRat_eq_div]

/-- C3: with a verification secret configured and a token supplied, a
submission proceeds past the spam gate iff the service call succeeds with
`success`, the returned action equals the declared action whenever one is
declared, and the returned confidence score is at least `0.7`; a missing
token or a service error rejects; without a verification secret the gate is
skipped entirely (no call, no rejection). -/
theorem C3_spam_gate_characterization (cfg : Config) (w : World) (rb : RequestBody) :
    (truthyS cfg.recaptchaSecret = false → spamCheck cfg w rb = (none, [])) ∧
    (truthyS cfg.recaptchaSecret = true → truthyS rb.recaptcha_token = false →
      (spamCheck cfg w rb).fst ≠ none) ∧
    (truthyS cfg.recaptchaSecret = true → truthyS rb.recaptcha_token = true →
      ∀ e, w.recaptchaVerify (rb.recaptcha_token.getD "") = Except.error e →
        (spamCheck cfg w rb).fst ≠ none) ∧
    (truthyS cfg.recaptchaSecret = true → truthyS rb.recaptcha_token = true →
      ∀ d s, w.recaptchaVerify (rb.recaptcha_token.getD "") = Except.ok d → d.score = some s →
        ((spamCheck cfg w rb).fst = none ↔
          (d.success = true ∧
           (truthyS rb.recaptcha_action = true → d.action = rb.recaptcha_action) ∧
           7 / 10 ≤ s))) := by
  refine ⟨?_, ?_, ?_, ?_⟩
  · intro h
    unfold spamCheck
    simp [h]
  · intro h1 h2
    unfold spamCheck
    simp [h1, h2]
  · intro h1 h2 e he
    unfold spamCheck
    simp [h1, h2, he]
  · intro h1 h2 d s hd hs
    unfold spamCheck
    rw [← minScore_eq]
    by_cases hsucc : d.success = true
    · by_cases hact : (truthyS rb.recaptcha_action && (d.action != rb.recaptcha_action)) = true
      · have : ¬ (truthyS rb.recaptcha_action = true → d.action = rb.recaptcha_action) := by
          simp only [Bool.and_eq_true, bne_iff_ne, ne_eq] at hact
          intro hcon
          exact hact.2 (hcon hact.1)
        simp [h1, h2, hd, hs, hsucc, hact, this]
      · by_cases hlt : s < minScore
        · simp [h1, h2, hd, hs, hsucc, hact, hlt, not_le.mpr hlt]
        · have hok : (truthyS rb.recaptcha_action = true → d.action = rb.recaptcha_action) := by
            intro htr
            by_contra hneq
            exact hact (by simp [htr, bne_iff_ne, hneq])
          simp [h1, h2, hd, hs, hsucc, hact, hlt, not_lt.mp hlt]
          exact hok
    · simp [h1, h2, hd, hs, hsucc]

/-- Configuration with both secrets set. -/
def cfgCap : Config :=
  ⟨"test-shop.myshopify.com", some "test-token", "2025-01", some "test-secret", some "captcha-secret"⟩

/-- World whose verification service reports success with score `0.8` and
action `submit`. -/
def wCap : World :=
  { w0 with recaptchaVerify := fun _ => Except.ok ⟨true, some (mkRat 4 5), some "submit", none⟩ }

/-- Request body carrying a verification token and declared action `submit`. -/
def rbCap : RequestBody := ⟨some emptyDraftOrder, some "tok", some "submit"⟩

/-- Witness for C3 at a concrete input. -/
theorem C3_spam_gate_characterization_witness :
    (spamCheck cfgCap wCap rbCap).fst = none ↔
      (true = true ∧
       (truthyS rbCap.recaptcha_action = true →
          (some "submit" : Option String) = rbCap.recaptcha_action) ∧
       (7 : ℚ) / 10 ≤ mkRat 4 5) :=
  (C3_spam_gate_characterization cfgCap wCap rbCap).2.2.2 rfl rfl
    ⟨true, some (mkRat 4 5), some "submit", none⟩ (mkRat 4 5) rfl rfl

/-! ## C7, C9, C10: structural lemmas and theorems -/

lemma noteWithRN_shape (rn : String) (o : Option String) :
    ∃ rest, noteWithRN rn o = "Reservation Number: " ++ rn ++ rest ∧
      (rest = "" ∨ ∃ orig, rest = "\n\n" ++ orig) := by
  cases o with
  | none =>
      refine ⟨"", ?_, Or.inl rfl⟩
      rw [String.append_empty]
      rfl
  | some n =>
      by_cases h : (n != "") = true
      · exact ⟨"\n\n" ++ n, by simp [noteWithRN, h, String.append_assoc], Or.inr ⟨n, rfl⟩⟩
      · refine ⟨"", ?_, Or.inl rfl⟩
        rw [String.append_empty]
        simp [noteWithRN, h]

lemma tagsWithRN_shape (rn : String) (o : Option String) :
    tagsWithRN rn o = rn ∨ ∃ t0, tagsWithRN rn o = rn ++ ", " ++ t0 := by
  cases o with
  | none => exact Or.inl rfl
  | some t =>
      by_cases h : (t != "") = true
      · exact Or.inr ⟨t, by simp [tagsWithRN, h]⟩
      · exact Or.inl (by simp [tagsWithRN, h])

lemma jsOr_cases (o : Option Nat) (d : Nat) :
    jsOr o d = d ∨ ∃ s, o = some s ∧ jsOr o d = s := by
  unfold jsOr
  rcases o with _ | s
  · exact Or.inl rfl
  · by_cases h : s = 0
    · exact Or.inl (by simp [h])
    · exact Or.inr ⟨s, rfl, by simp [h]⟩

lemma spamCheck_reject_status (cfg : Config) (w : World) (rb : RequestBody) :
    ∀ r tr, spamCheck cfg w rb = (some r, tr) → r.statusCode = 400 ∨ r.statusCode = 500 := by
  unfold spamCheck
  intro r tr h
  repeat' split at h
  all_goals
    injection h with h1 h2
  all_goals first
    | exact Option.noConfusion h1
    | (injection h1 with h1
       subst h1
       first
         | exact Or.inl rfl
         | exact Or.inr rfl)

/-- C7: on every 200 response, the reservation number returned in the body is
the leading segment of the note submitted on the created draft order (right
after the fixed label, ending the first line) and the first tag of the
submitted tag list.  The hypothesis models the `axios` contract that a
rejected promise never carries a 2xx response status. -/
theorem C7_reservation_number_round_trip (cfg : Config) (w : World) (ev : HttpEvent)
    (hax : ∀ d e r s, w.createDraftOrder d = Except.error e → e.response = some r →
      r.status = some s → ¬(200 ≤ s ∧ s < 300))
    (h200 : (handler cfg w ev).1.statusCode = 200) :
    ∃ rn d1 rest,
      (∃ doId nm url psu pid mfn,
        (handler cfg w ev).1.body = RespBody.success rn doId nm url psu pid mfn) ∧
      Call.createDraftOrder d1 ∈ (handler cfg w ev).2 ∧
      d1.note = some ("Reservation Number: " ++ rn ++ rest) ∧
      (rest = "" ∨ ∃ orig, rest = "\n\n" ++ orig) ∧
      (d1.tags = some rn ∨ ∃ ts0, d1.tags = some (rn ++ ", " ++ ts0)) := by
  obtain ⟨⟨res, tr⟩, heq⟩ : ∃ p, handler cfg w ev = p := ⟨_, rfl⟩
  rw [heq] at h200 ⊢
  unfold handler at heq
  split at heq
  · injection heq with h1 h2; subst h1; simp at h200
  split at heq
  · injection heq with h1 h2; subst h1; simp at h200
  split at heq
  · injection heq with h1 h2; subst h1; simp at h200
  rename_i rb hb
  split at heq
  · injection heq with h1 h2; subst h1; simp at h200
  rename_i d0 hd0
  split at heq
  · rename_i r trS hsp
    injection heq with h1 h2
    subst h1
    rcases spamCheck_reject_status cfg w rb _ _ hsp with h4 | h5 <;> simp_all
  rename_i tr0 hsp
  split at heq
  · injection heq with h1 h2; subst h1; simp at h200
  split at heq
  · injection heq with h1 h2; subst h1; simp at h200
  split at heq
  · injection heq with h1 h2; subst h1; simp at h200
  unfold processOrder at heq
  split at heq
  · rename_i e heqc
    exfalso
    injection heq with h1 h2
    subst h1
    have h200c : (catchTop e).statusCode = 200 := h200
    rcases catchTop_status_shape e with hs | hs | ⟨r, hr, hjs⟩
    · rw [h200c] at hs; exact absurd hs (by decide)
    · rw [h200c] at hs; exact absurd hs (by decide)
    · rw [h200c] at hjs
      rcases jsOr_cases r.status 400 with hv | ⟨s, hsome, hv⟩
      · rw [hv] at hjs; exact absurd hjs (by decide)
      · rw [hv] at hjs
        subst hjs
        exact hax _ e r 200 heqc hr hsome ⟨by omega, by omega⟩
  · rename_i resp heqc
    injection heq with h1 h2
    subst h1
    subst h2
    refine ⟨rnOf w, builtDraftOrder w d0, ?_⟩
    rcases noteWithRN_shape (rnOf w) d0.note with ⟨rest, hnote, hrest⟩
    refine ⟨rest, ⟨resp.id, _, _, _, _, _, rfl⟩, ?_, ?_, hrest, ?_⟩
    · simp
    · show some (noteWithRN (rnOf w) d0.note) = _
      rw [hnote]
    · rcases tagsWithRN_shape (rnOf w) d0.tags with ht | ⟨t0, ht⟩
      · exact Or.inl (congrArg some ht)
      · exact Or.inr ⟨t0, congrArg some ht⟩

/-- The variant lookup never resolves a product when every lookup rejects. -/
lemma itemLookup_snd_of_error (w : World) (ef : Nat → AxiosError)
    (hvar : ∀ v, w.getVariant v = Except.error (ef v)) (item : LineItem) :
    (itemLookup w item).snd = none := by
  unfold itemLookup
  split
  · rw [hvar]
  · rfl

lemma processLineItems_productId_of_error (w : World) (ef : Nat → AxiosError)
    (hvar : ∀ v, w.getVariant v = Except.error (ef v)) (items : Option (List LineItem)) :
    (processLineItems w items).productId = none := by
  cases items with
  | none => rfl
  | some is =>
      show (is.foldl (processItem w) ⟨[], none, "Reserved Product", "", []⟩).productId = none
      have key : ∀ (l : List LineItem) (acc : LineItemsResult), acc.productId = none →
          (l.foldl (processItem w) acc).productId = none := by
        intro l
        induction l with
        | nil => intro acc h; exact h
        | cons i l ih =>
            intro acc h
            refine ih _ ?_
            show ((itemLookup w i).snd).or acc.productId = none
            rw [itemLookup_snd_of_error w ef hvar, h]
            rfl
      exact key is _ rfl

/-- Reduce the handler to `processOrder` once all gates pass. -/
lemma handler_post_gates (cfg : Config) (w : World) (ev : HttpEvent)
    (rb : RequestBody) (d0 : DraftOrder) (tr0 : List Call)
    (hm : ev.httpMethod = "POST")
    (hb : ev.body = Except.ok rb)
    (hd : rb.draft_order = some d0)
    (hsp : spamCheck cfg w rb = (none, tr0))
    (hsig : truthyS (List.lookup "signature" (ev.queryStringParameters.getD [])) = true)
    (hts : truthyS (List.lookup "timestamp" (ev.queryStringParameters.getD [])) = true)
    (hver : (verifyShopifySignature w.hmac cfg.apiSecret cfg.shopDomain
      (ev.queryStringParameters.getD [])).fst = true)
    (hat : truthyS cfg.accessToken = true) :
    handler cfg w ev = processOrder cfg w d0 tr0 := by
  unfold handler
  simp [hm, hb, hd, hsp, hsig, hts, hver, hat]

/-- C9: if every variant lookup rejects (transport error / unknown variant),
the handler swallows the failure, resolves no product, proceeds to order
submission, and returns 200 with a success body whenever the order creation
succeeds. -/
theorem C9_variant_lookup_failure_graceful (cfg : Config) (w : World) (ev : HttpEvent)
    (rb : RequestBody) (d0 : DraftOrder) (tr0 : List Call) (resp : DraftOrderResp)
    (ef : Nat → AxiosError)
    (hm : ev.httpMethod = "POST")
    (hb : ev.body = Except.ok rb)
    (hd : rb.draft_order = some d0)
    (hsp : spamCheck cfg w rb = (none, tr0))
    (hsig : truthyS (List.lookup "signature" (ev.queryStringParameters.getD [])) = true)
    (hts : truthyS (List.lookup "timestamp" (ev.queryStringParameters.getD [])) = true)
    (hver : (verifyShopifySignature w.hmac cfg.apiSecret cfg.shopDomain
      (ev.queryStringParameters.getD [])).fst = true)
    (hat : truthyS cfg.accessToken = true)
    (hvar : ∀ v, w.getVariant v = Except.error (ef v))
    (hco : ∀ d, w.createDraftOrder d = Except.ok resp) :
    (handler cfg w ev).1.statusCode = 200 ∧
    ∃ nm url psu mfn, (handler cfg w ev).1.body =
      RespBody.success (generateReservationNumber w.date w.random) resp.id nm url psu none mfn := by
  rw [handler_post_gates cfg w ev rb d0 tr0 hm hb hd hsp hsig hts hver hat]
  unfold processOrder
  rw [hco]
  refine ⟨rfl,
    (if truthyS resp.name = true then resp.name.getD "" else "Draft Order"),
    ("https://" ++ cfg.shopDomain ++ "/admin/draft_orders/" ++ natToString resp.id),
    (productReservePhase w (liOf w d0).productId (rnOf w)).fst.isSome,
    (domPhase w resp.id (orderMetafieldsOf w d0)).fst, ?_⟩
  show RespBody.success (rnOf w) resp.id _ _ _ (processLineItems w d0.line_items).productId _ = _
  rw [processLineItems_productId_of_error w ef hvar d0.line_items]
  rfl

lemma no_commerce_no_write (l : List Call) (h : l.filter isCommerceCall = []) :
    l.filter isMetadataWrite = [] := by
  rw [List.filter_eq_nil_iff] at h ⊢
  intro a ha
  have hna := h a ha
  cases a <;> simp_all [isCommerceCall, isMetadataWrite]

lemma no_commerce_no_create (l : List Call) (h : l.filter isCommerceCall = []) :
    ∀ d, Call.createDraftOrder d ∉ l := by
  rw [List.filter_eq_nil_iff] at h
  intro d hmem
  exact (h _ hmem) rfl

/-- C10: when the draft-order creation call rejects, no product or order
metadata is ever written, every performed creation call yields the top-level
catch result, and that result's status is 401, 500, or derived from the
backend's own response status. -/
theorem C10_create_failure_no_writes (cfg : Config) (w : World) (ev : HttpEvent)
    (e : AxiosError)
    (hco : ∀ d, w.createDraftOrder d = Except.error e) :
    ((handler cfg w ev).2).filter isMetadataWrite = [] ∧
    (∀ d, Call.createDraftOrder d ∈ (handler cfg w ev).2 → (handler cfg w ev).1 = catchTop e) ∧
    ((catchTop e).statusCode = 401 ∨ (catchTop e).statusCode = 500 ∨
      ∃ r, e.response = some r ∧ (catchTop e).statusCode = jsOr r.status 400) := by
  have key : ((handler cfg w ev).2).filter isMetadataWrite = [] ∧
      (∀ d, Call.createDraftOrder d ∈ (handler cfg w ev).2 →
        (handler cfg w ev).1 = catchTop e) := by
    unfold handler
    split
    · exact ⟨rfl, by simp⟩
    split
    · exact ⟨rfl, by simp⟩
    split
    · exact ⟨rfl, by simp⟩
    rename_i rb hb
    split
    · exact ⟨rfl, by simp⟩
    rename_i d0 hd0
    split
    · rename_i r tr heq
      have hc := spamCheck_trace cfg w rb _ _ heq
      exact ⟨no_commerce_no_write _ hc,
        fun d hmem => absurd hmem (no_commerce_no_create _ hc d)⟩
    rename_i tr0 heq
    have hc := spamCheck_trace cfg w rb _ _ heq
    split
    · exact ⟨no_commerce_no_write _ hc,
        fun d hmem => absurd hmem (no_commerce_no_create _ hc d)⟩
    split
    · exact ⟨no_commerce_no_write _ hc,
        fun d hmem => absurd hmem (no_commerce_no_create _ hc d)⟩
    split
    · exact ⟨no_commerce_no_write _ hc,
        fun d hmem => absurd hmem (no_commerce_no_create _ hc d)⟩
    unfold processOrder
    simp only [hco]
    refine ⟨?_, fun d _ => by trivial⟩
    unfold liOf
    simp only [List.filter_append]
    rw [no_commerce_no_write _ hc,
      onlyGetVariant_no_writes _ (processLineItems_trace w d0.line_items)]
    rfl
  exact ⟨key.1, key.2, catchTop_status_shape e⟩

/-! ## C8: reservation number format -/

lemma natDigitsRev_zero (f : Nat) : natDigitsRev f 0 = [] := by
  cases f <;> rfl

lemma natDigitsRev_succ (f n : Nat) (h : n ≠ 0) :
    natDigitsRev (f + 1) n = (n % 10) :: natDigitsRev f (n / 10) := by
  simp [natDigitsRev, h]

lemma natDigitsRev_fuel (f : Nat) : ∀ n g, n < 10 ^ f → f ≤ g →
    natDigitsRev g n = natDigitsRev f n := by
  induction f with
  | zero =>
      intro n g hn hg
      have hn0 : n = 0 := by simpa using Nat.lt_one_iff.mp (by simpa using hn)
      subst hn0
      rw [natDigitsRev_zero, natDigitsRev_zero]
  | succ f ih =>
      intro n g hn hg
      obtain ⟨g1, rfl⟩ : ∃ g1, g = g1 + 1 := ⟨g - 1, by omega⟩
      by_cases hn0 : n = 0
      · subst hn0
        rw [natDigitsRev_zero, natDigitsRev_zero]
      · rw [natDigitsRev_succ g1 n hn0, natDigitsRev_succ f n hn0]
        have hlt : n / 10 < 10 ^ f := by
          rw [Nat.div_lt_iff_lt_mul (by norm_num)]
          calc n < 10 ^ (f + 1) := hn
            _ = 10 ^ f * 10 := by ring
        rw [ih (n / 10) g1 hlt (by omega)]

lemma natDigitsRev_four (y : Nat) (h1 : 1000 ≤ y) (h2 : y ≤ 9999) :
    natDigitsRev y y = [y % 10, y / 10 % 10, y / 100 % 10, y / 1000] := by
  have hf : natDigitsRev y y = natDigitsRev 4 y :=
    natDigitsRev_fuel 4 y y (by norm_num; omega) (by omega)
  rw [hf]
  rw [show natDigitsRev 4 y = y % 10 :: natDigitsRev 3 (y / 10) from
    natDigitsRev_succ 3 y (by omega)]
  rw [show natDigitsRev 3 (y / 10) = (y / 10) % 10 :: natDigitsRev 2 (y / 10 / 10) from
    natDigitsRev_succ 2 (y / 10) (by omega)]
  rw [show natDigitsRev 2 (y / 10 / 10) = (y / 10 / 10) % 10 :: natDigitsRev 1 (y / 10 / 10 / 10) from
    natDigitsRev_succ 1 (y / 10 / 10) (by omega)]
  rw [show natDigitsRev 1 (y / 10 / 10 / 10) =
      (y / 10 / 10 / 10) % 10 :: natDigitsRev 0 (y / 10 / 10 / 10 / 10) from
    natDigitsRev_succ 0 (y / 10 / 10 / 10) (by omega)]
  rw [show natDigitsRev 0 (y / 10 / 10 / 10 / 10) = [] from rfl]
  have e1 : y / 10 / 10 = y / 100 := by omega
  rw [e1]
  have e2 : y / 100 / 10 % 10 = y / 1000 := by omega
  rw [e2]

lemma natToString_four (y : Nat) (h1 : 1000 ≤ y) (h2 : y ≤ 9999) :
    natToString y = String.mk [digitChar (y / 1000), digitChar (y / 100 % 10),
      digitChar (y / 10 % 10), digitChar (y % 10)] := by
  unfold natToString
  rw [if_neg (by omega : ¬ y = 0), natDigitsRev_four y h1 h2]
  rfl

lemma natToString_pad_two (m : Nat) (h : m ≤ 99) :
    padStart (natToString m) 2 '0' = String.mk [digitChar (m / 10 % 10), digitChar (m % 10)] := by
  by_cases h0 : m = 0
  · subst h0
    decide
  by_cases h10 : m < 10
  · have e : natDigitsRev m m = [m % 10] := by
      rw [natDigitsRev_fuel 1 m m (by norm_num; omega) (by omega)]
      rw [show natDigitsRev 1 m = m % 10 :: natDigitsRev 0 (m / 10) from
        natDigitsRev_succ 0 m h0]
      rfl
    unfold natToString
    rw [if_neg h0, e]
    unfold padStart
    show String.mk (List.replicate 1 '0') ++ String.mk [digitChar (m % 10)] = _
    rw [show m / 10 % 10 = 0 from by omega, show digitChar 0 = '0' from by decide]
    rfl
  · have e : natDigitsRev m m = [m % 10, m / 10] := by
      rw [natDigitsRev_fuel 2 m m (by norm_num; omega) (by omega)]
      rw [show natDigitsRev 2 m = m % 10 :: natDigitsRev 1 (m / 10) from
        natDigitsRev_succ 1 m h0]
      rw [show natDigitsRev 1 (m / 10) = (m / 10) % 10 :: natDigitsRev 0 (m / 10 / 10) from
        natDigitsRev_succ 0 (m / 10) (by omega)]
      rw [show natDigitsRev 0 (m / 10 / 10) = [] from rfl,
        show m / 10 % 10 = m / 10 from by omega]
    unfold natToString
    rw [if_neg h0, e]
    unfold padStart
    show String.mk (List.replicate 0 '0') ++ String.mk [digitChar (m / 10), digitChar (m % 10)] = _
    rw [show m / 10 % 10 = m / 10 from by omega]
    rfl

lemma digitChar_isDigit (d : Nat) (h : d < 10) : (digitChar d).isDigit = true := by
  interval_cases d <;> decide

/-- The computable random-suffix value equals the floor of the affine map of
the source (`Math.floor(1000 + random * 9000)`). -/
theorem randomSuffixVal_eq_floor (r : ℚ) :
    randomSuffixVal r = (Int.floor ((1000 : ℚ) + r * 9000)).toNat := by
  unfold randomSuffixVal
  have hden : ((r.den : ℕ) : ℚ) ≠ 0 := Nat.cast_ne_zero.mpr r.den_nz
  have key : ((1000 : ℚ) + r * 9000) =
      ((1000 : ℤ) : ℚ) + ((r.num * 9000 : ℤ) : ℚ) / ((r.den : ℕ) : ℚ) := by
    conv_lhs => rw [← Rat.num_div_den r]
    push_cast
    field_simp
  rw [key, Int.floor_int_add, Rat.floor_intCast_div_natCast]

lemma randomSuffixVal_eq_nat (r : ℚ) (h0 : 0 ≤ r) :
    randomSuffixVal r = 1000 + (r.num.toNat * 9000) / r.den := by
  unfold randomSuffixVal
  have h1 : r.num * 9000 / (r.den : ℤ) = (((r.num.toNat * 9000) / r.den : ℕ) : ℤ) := by
    push_cast
    rw [Int.toNat_of_nonneg (Rat.num_nonneg.mpr h0)]
  rw [h1, show (1000 : ℤ) = ((1000 : ℕ) : ℤ) from rfl, ← Nat.cast_add]
  exact Int.toNat_natCast _

lemma randomSuffixVal_bounds (r : ℚ) (h0 : 0 ≤ r) (h1 : r < 1) :
    1000 ≤ randomSuffixVal r ∧ randomSuffixVal r ≤ 9999 := by
  rw [randomSuffixVal_eq_nat r h0]
  have hd : 0 < r.den := r.pos
  have hnum : r.num < (r.den : ℤ) := Rat.lt_one_iff_num_lt_denom.mp h1
  have hnn : 0 ≤ r.num := Rat.num_nonneg.mpr h0
  have hnd : r.num.toNat < r.den := by omega
  have hup : (r.num.toNat * 9000) / r.den < 9000 :=
    Nat.div_lt_of_lt_mul (by omega)
  generalize hq : (r.num.toNat * 9000) / r.den = q at hup ⊢
  omega

/-- C8: the generated reservation number is
`RES-` ++ two-digit year ++ two-digit month ++ two-digit day ++ `-` ++ suffix,
where the suffix is `Math.floor(1000 + random * 9000)`, lies in
`[1000, 9999]`, and the whole string matches the anchored regular expression
`RES-` six digits `-` four digits. -/
theorem C8_reservation_number_format (d : DateParts) (r : ℚ)
    (hy1 : 1000 ≤ d.year) (hy2 : d.year ≤ 9999)
    (hm2 : d.month ≤ 12) (hd2 : d.day ≤ 31)
    (hr0 : 0 ≤ r) (hr1 : r < 1) :
    generateReservationNumber d r =
      "RES-" ++ twoDigitStr (d.year % 100) ++ twoDigitStr d.month ++ twoDigitStr d.day ++
        "-" ++ natToString (randomSuffixVal r) ∧
    1000 ≤ randomSuffixVal r ∧ randomSuffixVal r ≤ 9999 ∧
    randomSuffixVal r = (Int.floor ((1000 : ℚ) + r * 9000)).toNat ∧
    matchesResFormat (generateReservationNumber d r) = true := by
  obtain ⟨hlo, hhi⟩ := randomSuffixVal_bounds r hr0 hr1
  have hyear : String.mk (((natToString d.year).toList.drop 2).take 2) =
      twoDigitStr (d.year % 100) := by
    rw [natToString_four d.year hy1 hy2]
    show String.mk [digitChar (d.year / 10 % 10), digitChar (d.year % 10)] = _
    unfold twoDigitStr
    rw [show d.year % 100 / 10 % 10 = d.year / 10 % 10 from by omega,
      show d.year % 100 % 10 = d.year % 10 from by omega]
  have hmonth : padStart (natToString d.month) 2 '0' = twoDigitStr d.month := by
    rw [natToString_pad_two d.month (by omega)]
    rfl
  have hday : padStart (natToString d.day) 2 '0' = twoDigitStr d.day := by
    rw [natToString_pad_two d.day (by omega)]
    rfl
  have hmain : generateReservationNumber d r =
      "RES-" ++ twoDigitStr (d.year % 100) ++ twoDigitStr d.month ++ twoDigitStr d.day ++
        "-" ++ natToString (randomSuffixVal r) := by
    unfold generateReservationNumber
    rw [hyear, hmonth, hday]
  refine ⟨hmain, hlo, hhi, randomSuffixVal_eq_floor r, ?_⟩
  rw [hmain, natToString_four (randomSuffixVal r) hlo hhi]
  unfold twoDigitStr
  show ([digitChar (d.year % 100 / 10 % 10), digitChar (d.year % 100 % 10),
      digitChar (d.month / 10 % 10), digitChar (d.month % 10),
      digitChar (d.day / 10 % 10), digitChar (d.day % 10),
      digitChar (randomSuffixVal r / 1000), digitChar (randomSuffixVal r / 100 % 10),
      digitChar (randomSuffixVal r / 10 % 10), digitChar (randomSuffixVal r % 10)].all
      Char.isDigit) = true
  simp only [List.all_cons, List.all_nil, Bool.and_eq_true, Bool.and_true]
  refine ⟨?_, ?_, ?_, ?_, ?_, ?_, ?_, ?_, ?_, ?_⟩ <;>
    exact digitChar_isDigit _ (by omega)

/-! ## Concrete scenarios for the remaining witnesses -/

/-- The draft order submitted by the conflict-test event `ev409`. -/
def do409 : DraftOrder :=
  ⟨some [⟨some "Test Product", some 12345, none, some "99.99", some 1, none⟩],
   some ⟨some "test@example.com", some "Test", some "Customer"⟩,
   some "Practice Name: Test Practice\nZIP/Postal Code: 12345\nCountry: Canada\nRole: Dentist",
   none⟩

/-- The parsed request body of the conflict-test event `ev409`. -/
def rb409 : RequestBody := ⟨some do409, none, none⟩

/-- A world where every variant lookup fails with a network error while
draft-order creation succeeds with id 55. -/
def wC9 : World :=
  { w0 with
    hmac := fun _ _ => "test-signature",
    getVariant := fun _ => Except.error ⟨none, "network error"⟩,
    createDraftOrder := fun _ => Except.ok ⟨55, none⟩ }

/-- A world where draft-order creation itself rejects with a bare network
error (no HTTP response attached). -/
def wC10 : World :=
  { w0 with
    hmac := fun _ _ => "test-signature",
    createDraftOrder := fun _ => Except.error ⟨none, "network down"⟩ }

/-- Witness for C7 at the conflict-test scenario: the run answers 200, and
the reservation number of the success body is the one embedded in the note
and tags of the created draft order. -/
theorem C7_reservation_number_round_trip_witness :
    (handler cfgNoCaptcha w409 ev409).1.statusCode = 200 ∧
    (∃ rn d1 rest,
      (∃ doId nm url psu pid mfn,
        (handler cfgNoCaptcha w409 ev409).1.body = RespBody.success rn doId nm url psu pid mfn) ∧
      Call.createDraftOrder d1 ∈ (handler cfgNoCaptcha w409 ev409).2 ∧
      d1.note = some ("Reservation Number: " ++ rn ++ rest) ∧
      (rest = "" ∨ ∃ orig, rest = "\n\n" ++ orig) ∧
      (d1.tags = some rn ∨ ∃ ts0, d1.tags = some (rn ++ ", " ++ ts0))) :=
  ⟨by decide, C7_reservation_number_round_trip cfgNoCaptcha w409 ev409
    (fun d e r s h => absurd h (by simp [w409, w0]))
    (by decide)⟩

/-- Witness for C8 at the date 2025-10-11 with `Math.random()` = 1/2: the
reservation number decomposes as stated, and its suffix is 5500. -/
theorem C8_reservation_number_format_witness :
    generateReservationNumber ⟨2025, 10, 11⟩ (mkRat 1 2) =
      "RES-" ++ twoDigitStr (2025 % 100) ++ twoDigitStr 10 ++ twoDigitStr 11 ++
        "-" ++ natToString (randomSuffixVal (mkRat 1 2)) ∧
    1000 ≤ randomSuffixVal (mkRat 1 2) ∧ randomSuffixVal (mkRat 1 2) ≤ 9999 ∧
    randomSuffixVal (mkRat 1 2) = (Int.floor ((1000 : ℚ) + (mkRat 1 2) * 9000)).toNat ∧
    matchesResFormat (generateReservationNumber ⟨2025, 10, 11⟩ (mkRat 1 2)) = true :=
  C8_reservation_number_format ⟨2025, 10, 11⟩ (mkRat 1 2)
    (by decide) (by decide) (by decide) (by decide) (by decide) (by decide)

/-- Witness for C9: with every variant lookup failing, the conflict-test
request still produces a 200 success body whose `product_id` is `none`. -/
theorem C9_variant_lookup_failure_graceful_witness :
    (handler cfgNoCaptcha wC9 ev409).1.statusCode = 200 ∧
    ∃ nm url psu mfn, (handler cfgNoCaptcha wC9 ev409).1.body =
      RespBody.success (generateReservationNumber wC9.date wC9.random)
        (DraftOrderResp.mk 55 none).id nm url psu none mfn :=
  C9_variant_lookup_failure_graceful cfgNoCaptcha wC9 ev409 rb409 do409 []
    ⟨55, none⟩ (fun _ => ⟨none, "network error"⟩)
    rfl rfl rfl rfl (by decide) (by decide) (by decide) (by decide)
    (fun _ => rfl) (fun _ => rfl)

/-- Witness for C10: when draft-order creation rejects with a bare network
error, the run writes no metadata and the top-level catch answers 500. -/
theorem C10_create_failure_no_writes_witness :
    ((handler cfgNoCaptcha wC10 ev409).2).filter isMetadataWrite = [] ∧
    (∀ d, Call.createDraftOrder d ∈ (handler cfgNoCaptcha wC10 ev409).2 →
      (handler cfgNoCaptcha wC10 ev409).1 = catchTop ⟨none, "network down"⟩) ∧
    ((catchTop (⟨none, "network down"⟩ : AxiosError)).statusCode = 401 ∨
      (catchTop (⟨none, "network down"⟩ : AxiosError)).statusCode = 500 ∨
      ∃ r, (⟨none, "network down"⟩ : AxiosError).response = some r ∧
        (catchTop (⟨none, "network down"⟩ : AxiosError)).statusCode = jsOr r.status 400) :=
  C10_create_failure_no_writes cfgNoCaptcha wC10 ev409 ⟨none, "network down"⟩ (fun _ => rfl)

end CreateDraftOrder
